import Mathlib

/-!
Verification of the cnc_pendant bridge (XHC WHB04B-4 pendant to GRBL v1.1
controller).  The definitions below are shallow embeddings of the Python
sources `Controller.py`, `Pendant.py`, `Processor.py` and `grbl.py`; the
theorems settle the specification claims against them.

Conventions used throughout:
  * machine integers are `Nat` / `Int` (Python ints are unbounded);
  * Python floats that only ever carry short decimal values are embedded as
    exact rationals, or as their printed decimal digits where the source
    manipulates `str(v)`;
  * code that can raise returns `Option` / `Except`.
-/

namespace Py

/-- Python str.strip() with no argument: remove leading and trailing
whitespace. -/
def pyStrip (s : String) : String :=
  String.mk (((s.data.dropWhile Char.isWhitespace).reverse.dropWhile
    Char.isWhitespace).reverse)

/-- Python s.startswith(p). -/
def pyStartsWith (s p : String) : Bool := p.data.isPrefixOf s.data

/-- Python s.endswith(p). -/
def pyEndsWith (s p : String) : Bool := p.data.reverse.isPrefixOf s.data.reverse

/-- Split a character list on a separator character, keeping empty pieces,
as Python str.split(sep) does for a one-character separator. -/
def splitChars (sep : Char) : List Char → List (List Char)
  | [] => [[]]
  | c :: cs =>
    match splitChars sep cs, decide (c = sep) with
    | r, true => [] :: r
    | [], false => [[c]]
    | h :: t, false => (c :: h) :: t

/-- Python s.split(sep) for a one-character separator sep. -/
def pySplit (s : String) (sep : Char) : List String :=
  (splitChars sep s.data).map String.mk

/-- Python substring membership test, needle in hay. -/
def pyInStr : String → String → Bool
  | needle, hay => goElem needle.data hay.data
where
  goElem (needle : List Char) : List Char → Bool
    | [] => needle.isEmpty
    | c :: cs => needle.isPrefixOf (c :: cs) || goElem needle cs

end Py

namespace Grbl

/-- RX_BUFFER_SIZE from grbl.py line 270. -/
def RX_BUFFER_SIZE : Nat := 128

/-- REALTIME_COMMANDS from grbl.py lines 538-556: name to single-character code. -/
def REALTIME_COMMANDS : List (String × Nat) :=
  [("CYCLE_START", 0x7e),
   ("FEED_HOLD", 0x21),
   ("STATUS", 0x3f),
   ("RESET", 0x18),
   ("SAFETY_DOOR", 0x84),
   ("JOG_CANCEL", 0x85),
   ("FEED_100", 0x90),
   ("FEED_INCR_10", 0x91),
   ("FEED_DECR_10", 0x92),
   ("FEED_INCR_1", 0x93),
   ("FEED_DECR_1", 0x94),
   ("RAPID_100", 0x95),
   ("RAPID_50", 0x96),
   ("RAPID_25", 0x97),
   ("TOGGLE_SPINDLE", 0x9e),
   ("TOGGLE_FLOOD", 0xa0),
   ("TOGGLE_MIST", 0xa1)]

end Grbl

namespace Controller

/-- Sum of the byte counts recorded for the lines still buffered in the device
(`sum(self.bufferedBytes)` in Controller.py). -/
def sumBytes (bb : List Nat) : Nat := bb.sum

/-- One guarded pop of the oldest entry, as in Controller.streamCmd
(`if len(self.bufferedBytes) > 0: self.bufferedBytes.pop(0)`). -/
def popOldest (bb : List Nat) : List Nat :=
  match bb with
  | [] => []
  | _ :: rest => rest

/-- Consume `n` acks, popping the oldest bufferedBytes entry per consumed ack
(the drain loop of Controller.streamCmd lines 215-218). -/
def drainAcks : Nat → List Nat → List Nat
  | 0, bb => bb
  | n + 1, bb => drainAcks n (popOldest bb)

/-- Controller client streaming state: the FIFO of per-line byte counts
(`self.bufferedBytes`) and the number of acks signalled by the receive side
but not yet consumed by `streamCmd` (`self.ackQ`, counted). -/
structure StreamState where
  bufferedBytes : List Nat
  ackQ : Nat
  deriving Repr, DecidableEq

/-- Initial streaming state from Controller.__init__ (lines 108-109). -/
def StreamState.init : StreamState := { bufferedBytes := [], ackQ := 0 }

/-- Controller.streamCmd (Controller.py lines 199-231), observed at quiescent
points.  The Python code first drains every ack already signalled on `ackQ`
(popping the oldest `bufferedBytes` entry per ack, lines 215-218), builds
`data = cmd.strip() + CRLF`, and then blocks on further acks while
`numBytes > RX_BUFFER_SIZE - sum(bufferedBytes)` (lines 220-225) before
writing and appending `numBytes` (lines 227-230).  An ack consumed inside
that blocking wait arrives after the call started, so in a quiescent trace it
is an ack event ordered before this stream event; a call that cannot complete
with the acks received so far is therefore modelled as still blocked
(`none`). -/
def streamCmd (s : StreamState) (cmd : String) : Option StreamState :=
  let bb := drainAcks s.ackQ s.bufferedBytes
  let numBytes := (Py.pyStrip cmd ++ "\r\n").length
  if (numBytes : Int) > (Grbl.RX_BUFFER_SIZE : Int) - (sumBytes bb : Int) then
    none
  else
    some { bufferedBytes := bb ++ [numBytes], ackQ := 0 }

/-- Events visible at quiescent points of the streaming protocol: an ack
(`ok`, `error:<n>` or `ALARM:<n>` received, Controller._receive lines 146-158,
each of which does `self.ackQ.put(True)`), or a completed `streamCmd` call. -/
inductive StreamEvent where
  | ack : StreamEvent
  | stream : String → StreamEvent
  deriving Repr, DecidableEq

/-- One step of the quiescent-point transition system. -/
def stepEvent (s : StreamState) : StreamEvent → Option StreamState
  | StreamEvent.ack => some { s with ackQ := s.ackQ + 1 }
  | StreamEvent.stream cmd => streamCmd s cmd

/-- Run a sequence of events from a state; `none` when a stream call blocks
forever (no write happens in that case). -/
def runEvents : StreamState → List StreamEvent → Option StreamState
  | s, [] => some s
  | s, e :: es =>
    match stepEvent s e with
    | none => none
    | some t => runEvents t es

/-- Number of lines submitted (completed streamCmd calls) in a trace. -/
def numSubmitted (evs : List StreamEvent) : Nat :=
  evs.countP fun e =>
    match e with
    | StreamEvent.stream _ => true
    | StreamEvent.ack => false

/-- Number of acks (`ok` / `error:<n>` / `ALARM:<n>` packets) in a trace. -/
def numAcks (evs : List StreamEvent) : Nat :=
  evs.countP fun e =>
    match e with
    | StreamEvent.stream _ => false
    | StreamEvent.ack => true

theorem drainAcks_eq_drop (n : Nat) (bb : List Nat) : drainAcks n bb = bb.drop n := by
  induction n generalizing bb with
  | zero => simp [drainAcks]
  | succ k ih =>
    cases bb with
    | nil => simp [drainAcks, popOldest, ih]
    | cons a rest => simp [drainAcks, popOldest, ih]

theorem runEvents_append (s : StreamState) (l1 l2 : List StreamEvent) :
    runEvents s (l1 ++ l2) =
      match runEvents s l1 with
      | none => none
      | some t => runEvents t l2 := by
  induction l1 generalizing s with
  | nil => simp [runEvents]
  | cons e es ih =>
    simp only [List.cons_append, runEvents]
    cases stepEvent s e with
    | none => rfl
    | some t => exact ih t

theorem numAcks_append_ack (l : List StreamEvent) :
    numAcks (l ++ [StreamEvent.ack]) = numAcks l + 1 := by
  simp [numAcks, List.countP_append]

theorem numAcks_append_stream (l : List StreamEvent) (cmd : String) :
    numAcks (l ++ [StreamEvent.stream cmd]) = numAcks l := by
  simp [numAcks, List.countP_append]

theorem numSubmitted_append_ack (l : List StreamEvent) :
    numSubmitted (l ++ [StreamEvent.ack]) = numSubmitted l := by
  simp [numSubmitted, List.countP_append]

theorem numSubmitted_append_stream (l : List StreamEvent) (cmd : String) :
    numSubmitted (l ++ [StreamEvent.stream cmd]) = numSubmitted l + 1 := by
  simp [numSubmitted, List.countP_append]

theorem stepEvent_ack_eq (s t : StreamState)
    (hstep : stepEvent s StreamEvent.ack = some t) :
    t.bufferedBytes = s.bufferedBytes ∧ t.ackQ = s.ackQ + 1 := by
  simp only [stepEvent, Option.some.injEq] at hstep
  rw [← hstep]
  exact ⟨rfl, rfl⟩

theorem stepEvent_stream_len (s t : StreamState) (cmd : String)
    (hstep : stepEvent s (StreamEvent.stream cmd) = some t) :
    t.bufferedBytes.length = s.bufferedBytes.length - s.ackQ + 1 ∧ t.ackQ = 0 := by
  simp only [stepEvent, streamCmd] at hstep
  split at hstep
  · exact absurd hstep (by simp)
  · simp only [Option.some.injEq] at hstep
    rw [← hstep]
    simp [drainAcks_eq_drop, List.length_drop]

theorem sumBytes_le_of_step (s t : StreamState) (e : StreamEvent)
    (hs : sumBytes s.bufferedBytes ≤ Grbl.RX_BUFFER_SIZE)
    (hstep : stepEvent s e = some t) :
    sumBytes t.bufferedBytes ≤ Grbl.RX_BUFFER_SIZE := by
  cases e with
  | ack =>
    obtain ⟨hbb, _⟩ := stepEvent_ack_eq s t hstep
    rw [hbb]
    exact hs
  | stream cmd =>
    simp only [stepEvent, streamCmd] at hstep
    split at hstep
    · exact absurd hstep (by simp)
    · rename_i hfit
      simp only [Option.some.injEq] at hstep
      rw [← hstep]
      simp only [sumBytes, List.sum_append, List.sum_cons, List.sum_nil]
      simp only [not_lt, sumBytes] at hfit
      have h0 : (0 : Int) ≤ ((drainAcks s.ackQ s.bufferedBytes).sum : Int) := by positivity
      omega

/-- C1: at every quiescent point reachable by streamCmd calls and ack
arrivals, the total of the bufferedBytes entries is at most
RX_BUFFER_SIZE = 128; streamCmd only writes a line once it fits, consuming
acks (oldest entry popped per ack) until it does. -/
theorem C1_buffered_bytes_bounded (evs : List StreamEvent) (s : StreamState)
    (h : runEvents StreamState.init evs = some s) :
    sumBytes s.bufferedBytes ≤ Grbl.RX_BUFFER_SIZE := by
  suffices hgen : ∀ (l : List StreamEvent) (a b : StreamState),
      sumBytes a.bufferedBytes ≤ Grbl.RX_BUFFER_SIZE →
      runEvents a l = some b → sumBytes b.bufferedBytes ≤ Grbl.RX_BUFFER_SIZE by
    exact hgen evs StreamState.init s (by simp [StreamState.init, sumBytes]) h
  intro l
  induction l with
  | nil =>
    intro a b ha hrun
    simp only [runEvents, Option.some.injEq] at hrun
    rw [← hrun]; exact ha
  | cons e es ih =>
    intro a b ha hrun
    simp only [runEvents] at hrun
    cases hstep : stepEvent a e with
    | none => rw [hstep] at hrun; exact absurd hrun (by simp)
    | some t =>
      rw [hstep] at hrun
      exact ih t b (sumBytes_le_of_step a t e ha hstep) hrun

/-- Witness for C1 at the concrete trace that streams the single line
"G0 X10" (8 bytes with CRLF). -/
theorem C1_buffered_bytes_bounded_witness :
    sumBytes (StreamState.mk [8] 0).bufferedBytes ≤ Grbl.RX_BUFFER_SIZE :=
  C1_buffered_bytes_bounded [StreamEvent.stream "G0 X10"] (StreamState.mk [8] 0)
    (by decide)

/-- C2 counterexample: after streaming "G0 X10" (one submitted line) and then
receiving one ok, bufferedBytes still holds one entry, not
submitted - acks = 0: the ack is consumed lazily, only at the next streamCmd
call. -/
theorem C2_count_counterexample :
    (runEvents StreamState.init [StreamEvent.stream "G0 X10", StreamEvent.ack]).map
        (fun s => s.bufferedBytes.length) = some 1 ∧
    numSubmitted [StreamEvent.stream "G0 X10", StreamEvent.ack]
      - numAcks [StreamEvent.stream "G0 X10", StreamEvent.ack] = 0 := by
  constructor
  · decide
  · decide

/-- C2 amended: each received ok / error / ALARM increments the ack count,
but the oldest buffered entry is freed only when streamCmd consumes the ack
(lazily, at the next call).  Hence, provided acks never outnumber submitted
lines in any prefix of the trace (GRBL sends one ack per line), the entry
count satisfies len(bufferedBytes) + acksReceived = linesSubmitted +
pendingUnconsumedAcks. -/
theorem C2_count_amended (evs : List StreamEvent) (s : StreamState)
    (hrun : runEvents StreamState.init evs = some s)
    (hpre : ∀ n, n ≤ evs.length →
      numAcks (evs.take n) ≤ numSubmitted (evs.take n)) :
    s.bufferedBytes.length + numAcks evs = numSubmitted evs + s.ackQ := by
  induction evs using List.reverseRecOn generalizing s with
  | nil =>
    simp only [runEvents, Option.some.injEq] at hrun
    rw [← hrun]
    simp [StreamState.init, numAcks, numSubmitted]
  | append_singleton l e ih =>
    rw [runEvents_append] at hrun
    cases hl : runEvents StreamState.init l with
    | none => rw [hl] at hrun; exact absurd hrun (by simp)
    | some t =>
      rw [hl] at hrun
      simp only [runEvents] at hrun
      cases hstep : stepEvent t e with
      | none => rw [hstep] at hrun; exact absurd hrun (by simp)
      | some u =>
        rw [hstep] at hrun
        simp only [runEvents, Option.some.injEq] at hrun
        have hpre' : ∀ n, n ≤ l.length →
            numAcks (l.take n) ≤ numSubmitted (l.take n) := by
          intro n hn
          have hlen : n ≤ (l ++ [e]).length := by
            simp only [List.length_append, List.length_cons, List.length_nil]
            omega
          have := hpre n hlen
          rwa [List.take_append_of_le_length hn] at this
        have hih := ih t hl hpre'
        have hacks_le : numAcks l ≤ numSubmitted l := by
          have := hpre' l.length (Nat.le_refl _)
          simpa using this
        have hle : t.ackQ ≤ t.bufferedBytes.length := by omega
        rw [← hrun]
        cases e with
        | ack =>
          obtain ⟨hbb, hq⟩ := stepEvent_ack_eq t u hstep
          rw [numAcks_append_ack, numSubmitted_append_ack, hbb, hq]
          omega
        | stream cmd =>
          obtain ⟨hlen, hq⟩ := stepEvent_stream_len t u cmd hstep
          rw [numAcks_append_stream, numSubmitted_append_stream, hlen, hq]
          omega

/-- Witness for C2 amended at the trace stream "G0 X10", ack, stream "M5":
the second streamCmd consumes the ack, leaving one entry and no pending
acks. -/
theorem C2_count_amended_witness :
    (StreamState.mk [4] 0).bufferedBytes.length
        + numAcks [StreamEvent.stream "G0 X10", StreamEvent.ack, StreamEvent.stream "M5"]
      = numSubmitted [StreamEvent.stream "G0 X10", StreamEvent.ack, StreamEvent.stream "M5"]
        + (StreamState.mk [4] 0).ackQ :=
  C2_count_amended [StreamEvent.stream "G0 X10", StreamEvent.ack, StreamEvent.stream "M5"]
    (StreamState.mk [4] 0) (by decide) (by decide)

end Controller

namespace Controller

/-- UTF-8 encoding of a single character, as performed by Python
bytes(s, encoding='utf-8') character by character. -/
def utf8Char (c : Char) : List Nat :=
  let n := c.toNat
  if n < 0x80 then [n]
  else if n < 0x800 then
    [0xc0 ||| (n >>> 6), 0x80 ||| (n &&& 0x3f)]
  else if n < 0x10000 then
    [0xe0 ||| (n >>> 12), 0x80 ||| ((n >>> 6) &&& 0x3f), 0x80 ||| (n &&& 0x3f)]
  else
    [0xf0 ||| (n >>> 18), 0x80 ||| ((n >>> 12) &&& 0x3f),
     0x80 ||| ((n >>> 6) &&& 0x3f), 0x80 ||| (n &&& 0x3f)]

/-- UTF-8 encoding of a string (Python bytes(s, encoding='utf-8')). -/
def utf8Bytes (s : String) : List Nat :=
  s.data.foldr (fun c acc => utf8Char c ++ acc) []

/-- Controller._sendCmd (Controller.py lines 187-197): append CR LF and write
the UTF-8 bytes to the serial link.  Returns the bytes written. -/
def sendCmdBytes (cmd : String) : List Nat := utf8Bytes (cmd ++ "\r\n")

/-- Controller.realtimeCommand (Controller.py lines 288-295): assert the name
is in REALTIME_COMMANDS (AssertionError, modelled none, otherwise), then pass
chr(code) to _sendCmd.  Returns the serial bytes written. -/
def realtimeCommand (cmdName : String) : Option (List Nat) :=
  match Grbl.REALTIME_COMMANDS.lookup cmdName with
  | none => none
  | some code => some (sendCmdBytes (String.mk [Char.ofNat code]))

/-- Packet type tags from Controller.PacketTypes (Controller.py lines 82-90). -/
inductive PacketTypes where
  | STATUS
  | FEEDBACK
  | GCODE_STATE
  | PARAMETER
  | BUILD
  | ECHO
  | STARTUP
  | STANDARD
  deriving Repr, DecidableEq

/-- Result of Controller._receive on one framed packet: the empty frame is
suppressed, ok / error / ALARM only signal the ack queue, anything else is
classified and returned with its data. -/
inductive RecvResult where
  | empty : RecvResult
  | ackSignal : RecvResult
  | packet (t : PacketTypes) (data : String) : RecvResult
  deriving Repr, DecidableEq

/-- Model of the Python expression `packet.endswith(":ok") == ']'` on
Controller.py line 174: the left operand is a bool and the right a one
character string, and in Python `bool == str` is always False (no implicit
conversion), so the whole test is False whatever the packet is. -/
def pyBoolEqStr (_ : Bool) (_ : String) : Bool := false

/-- Controller._receive classification (Controller.py lines 141-181): strip
the frame, suppress empty frames, turn ok / error: / ALARM: into ack signals,
otherwise classify by the first-match chain of lines 160-179 (which tests, in
source order, status angle brackets, [MSG:, [GC:, [G / [TLO: / [PRB:, [VER:,
[OPT:, [echo:, the startup test of line 174, then a leading dollar). -/
def receivePacket (raw : String) : RecvResult :=
  let packet := Py.pyStrip raw
  if packet = "" then RecvResult.empty
  else if packet = "ok" then RecvResult.ackSignal
  else if Py.pyStartsWith packet "error:" then RecvResult.ackSignal
  else if Py.pyStartsWith packet "ALARM:" then RecvResult.ackSignal
  else
    let t :=
      if Py.pyStartsWith packet "<" && Py.pyEndsWith packet ">" then
        PacketTypes.STATUS
      else if Py.pyStartsWith packet "[MSG:" && Py.pyEndsWith packet "]" then
        PacketTypes.FEEDBACK
      else if Py.pyStartsWith packet "[GC:" && Py.pyEndsWith packet "]" then
        PacketTypes.GCODE_STATE
      else if Py.pyStartsWith packet "[G" || Py.pyStartsWith packet "[TLO:"
          || Py.pyStartsWith packet "[PRB:" then
        PacketTypes.PARAMETER
      else if Py.pyStartsWith packet "[VER:" && Py.pyEndsWith packet "]" then
        PacketTypes.BUILD
      else if Py.pyStartsWith packet "[OPT:" && Py.pyEndsWith packet "]" then
        PacketTypes.BUILD
      else if Py.pyStartsWith packet "[echo:" && Py.pyEndsWith packet "]" then
        PacketTypes.ECHO
      else if Py.pyStartsWith packet ">"
          && pyBoolEqStr (Py.pyEndsWith packet ":ok") "]" then
        PacketTypes.STARTUP
      else if Py.pyStartsWith packet "$" then
        PacketTypes.PARAMETER
      else
        PacketTypes.STANDARD
    RecvResult.packet t packet

/-- C3 (code bug): realtimeCommand routes through _sendCmd, so the wire
carries the command byte followed by CR LF, not the single unframed byte the
protocol requires; a STATUS request writes 0x3f 0x0d 0x0a, and codes at or
above 0x80 are additionally expanded by the UTF-8 encoder, JOG_CANCEL (0x85)
becoming 0xc2 0x85 0x0d 0x0a. -/
theorem C3_realtime_command_framed :
    realtimeCommand "STATUS" = some [0x3f, 0x0d, 0x0a] ∧
    realtimeCommand "STATUS" ≠ some [0x3f] ∧
    realtimeCommand "JOG_CANCEL" = some [0xc2, 0x85, 0x0d, 0x0a] := by
  refine ⟨by decide, by decide, by decide⟩

/-- C4 (code bug): the startup test on Controller.py line 174 compares
endswith(":ok") (a bool) with the string ']', which is always False in
Python, so a startup packet such as ">G54G20:ok" is never classified
STARTUP; it falls through to STANDARD. -/
theorem C4_startup_packet_misclassified :
    receivePacket ">G54G20:ok" = RecvResult.packet PacketTypes.STANDARD ">G54G20:ok" := by
  decide

end Controller

namespace Processor

/-- A Python numeric value as stored by the status parser: int and float are
distinct Python types (float("500") is 500.0 while int("0") is 0). -/
inductive PyScalar where
  | intVal (n : Int)
  | floatVal (q : ℚ)
  deriving Repr, DecidableEq

/-- Whether a PyScalar is a Python float (isinstance(v, float)). -/
def PyScalar.isFloat : PyScalar → Bool
  | PyScalar.intVal _ => false
  | PyScalar.floatVal _ => true

/-- Value of a decimal digit list read most significant first. -/
def digitsToNat (ds : List Char) : Nat :=
  ds.foldl (fun acc c => acc * 10 + (c.toNat - 48)) 0

/-- Python float(s) for the plain decimal strings that appear in GRBL status
reports: optional sign, then digits with an optional decimal point; anything
else raises ValueError (none).  Exponent and special forms never occur in
the modelled inputs. -/
def parsePyFloat (s : String) : Option ℚ :=
  let (neg, body) :=
    if Py.pyStartsWith s "-" then (true, s.drop 1)
    else if Py.pyStartsWith s "+" then (false, s.drop 1)
    else (false, s)
  match Py.pySplit body '.' with
  | [ip] =>
    if ip.length > 0 && ip.data.all Char.isDigit then
      some (mkRat ((if neg then -1 else 1) * (digitsToNat ip.data : Int)) 1)
    else none
  | [ip, fp] =>
    if (ip.length > 0 || fp.length > 0) && ip.data.all Char.isDigit
        && fp.data.all Char.isDigit then
      some (mkRat
        ((if neg then -1 else 1) *
          ((digitsToNat ip.data : Int) * (10 ^ fp.length : Int) + (digitsToNat fp.data : Int)))
        (10 ^ fp.length))
    else none
  | _ => none

/-- Python int(s): optional sign then decimal digits; ValueError (none)
otherwise. -/
def parsePyInt (s : String) : Option Int :=
  let (neg, body) :=
    if Py.pyStartsWith s "-" then (true, s.drop 1)
    else if Py.pyStartsWith s "+" then (false, s.drop 1)
    else (false, s)
  if body.length > 0 && body.data.all Char.isDigit then
    some ((if neg then -1 else 1) * (digitsToNat body.data : Int))
  else none

/-- Pendant.CoordinateSpace (Pendant.py lines 117-120). -/
def MACHINE : Nat := 0

/-- Pendant.CoordinateSpace.WORKPIECE. -/
def WORKPIECE : Nat := 1

/-- ControllerStatus.COORDINATE_SPACE_MAP (Processor.py lines 62-65). -/
def COORDINATE_SPACE_MAP : List (String × Nat) := [("MPos", MACHINE), ("WPos", WORKPIECE)]

/-- Result record of ControllerStatus._parseStatus: the state field is always
set from the first segment; every other key of the Python dict is modelled
as an optional field that starts absent. -/
structure ParsedStatus where
  state : String
  coordinateSpace : Option Nat := none
  coordinates : Option (List ℚ) := none
  planBuffers : Option String := none
  rxBuffers : Option String := none
  lineNumber : Option Int := none
  feedSpeed : Option PyScalar := none
  spindleSpeed : Option Int := none
  workCoordinateOffset : Option String := none
  accessoryState : Option String := none
  overrides : Option String := none
  pinStates : Option String := none
  deriving Repr, DecidableEq

/-- Python dict insertion: a repeated key overwrites in place, a new key is
appended (insertion order is preserved, as the comprehension on Processor.py
line 78 relies on). -/
def pyDictInsert (d : List (String × String)) (k v : String) : List (String × String) :=
  if d.any (fun p => p.1 = k) then
    d.map (fun p => if p.1 = k then (k, v) else p)
  else d ++ [(k, v)]

/-- The dict comprehension on Processor.py line 78:
parts = (p.split(':')[0] : p.split(':')[1]) over the remaining segments;
a segment without a colon raises IndexError (none). -/
def buildParts (segs : List String) : Option (List (String × String)) :=
  segs.foldlM
    (fun d p =>
      match Py.pySplit p ':' with
      | [_] => none
      | k :: v :: _ => some (pyDictInsert d k v)
      | [] => none)
    []

/-- One iteration of the field loop of ControllerStatus._parseStatus
(Processor.py lines 80-107): dispatch on the key name, raising (none) where
the Python code would raise (unknown xPos key, missing comma fields, or
unparsable numbers). -/
def applyStatusField (ps : ParsedStatus) (name part : String) : Option ParsedStatus :=
  if Py.pyEndsWith name "Pos" then
    match COORDINATE_SPACE_MAP.lookup name with
    | none => none
    | some cs =>
      match (Py.pySplit part ',').mapM parsePyFloat with
      | none => none
      | some qs => some { ps with coordinateSpace := some cs, coordinates := some qs }
  else if name = "Bf" then
    match Py.pySplit part ',' with
    | a :: b :: _ => some { ps with planBuffers := some a, rxBuffers := some b }
    | _ => none
  else if name = "Ln" then
    (parsePyInt part).map fun n => { ps with lineNumber := some n }
  else if name = "FS" then
    match Py.pySplit part ',' with
    | a :: b :: _ =>
      match parsePyFloat a, parsePyInt b with
      | some f, some n =>
        some { ps with feedSpeed := some (PyScalar.floatVal f), spindleSpeed := some n }
      | _, _ => none
    | _ => none
  else if name = "F" then
    (parsePyInt part).map fun n => { ps with feedSpeed := some (PyScalar.intVal n) }
  else if name = "WCO" then some { ps with workCoordinateOffset := some part }
  else if name = "A" then some { ps with accessoryState := some part }
  else if name = "Ov" then some { ps with overrides := some part }
  else if name = "Pn" then some { ps with pinStates := some part }
  else some ps

/-- ControllerStatus._parseStatus (Processor.py lines 76-108): strip the
angle brackets (status[1:-1]), split on the bar character, take the first
segment as the state, build the key/value dict from the rest and fold the
field dispatch over it in insertion order. -/
def parseStatus (status : String) : Option ParsedStatus :=
  let inner := (status.drop 1).dropRight 1
  match Py.pySplit inner '|' with
  | [] => none
  | st :: restSegs =>
    (buildParts restSegs).bind fun parts =>
      parts.foldlM (fun ps kv => applyStatusField ps kv.1 kv.2) { state := st }

/-- C5: parsing the crafted status string yields exactly state Idle,
coordinateSpace MACHINE, coordinates 1.0, -2.5 (written mkRat (-5) 2) and
0.0, feedSpeed the float 500.0 and spindleSpeed the int 0, with every other
field unset. -/
theorem C5_parse_idle_status :
    parseStatus "<Idle|MPos:1.000,-2.500,0.000|FS:500,0>" =
      some { state := "Idle",
             coordinateSpace := some MACHINE,
             coordinates := some [1, mkRat (-5) 2, 0],
             feedSpeed := some (PyScalar.floatVal 500),
             spindleSpeed := some 0 } := by
  decide

end Processor

namespace Pendant

/-- Model of a Python float whose printed form (str(v)) is a plain decimal
with at most four fractional digits: a sign, an integer part ip, and the
first four fractional decimal digits fr, zero padded (value fr / 10000).
For a float produced from a decimal literal with at most four decimals and
magnitude below 2^16, Python's shortest round-trip repr prints exactly that
decimal (any other decimal with at most four fractional digits is farther
than half an ulp away), so the string operations of
Pendant._makeDisplayCommand on str(v) are functions of (neg, ip, fr). -/
structure DecFloat where
  neg : Bool
  ip : Nat
  fr : Nat
  deriving Repr, DecidableEq

/-- Rational value of the modelled float. -/
def DecFloat.toRat (d : DecFloat) : ℚ :=
  (if d.neg then -1 else 1) * ((d.ip : ℚ) + (d.fr : ℚ) / 10000)

/-- Python truthiness of the float: 0.0 and -0.0 are falsy. -/
def DecFloat.isZero (d : DecFloat) : Bool := d.ip = 0 && d.fr = 0

/-- The fractSign lambda of Pendant._makeDisplayCommand (Pendant.py line
203): for falsy v the pair (0, 0); otherwise abs(int(v)) paired with
((v < 0) << 15) | (int of the first four fraction digits of str(v), zero
padded, & 0x7fff).  int(v) truncates toward zero, so abs(int(v)) is ip; the
digits after the decimal point of str(v) padded with "0000" and cut to four
are exactly the four digits of fr. -/
def fractSign (d : DecFloat) : Nat × Nat :=
  if d.isZero then (0, 0)
  else (d.ip, ((if d.neg then 1 else 0) <<< 15) ||| (d.fr &&& 0x7fff))

/-- Decoder stated by the specification for the (integerPart,
fractionSignPart) pair: bit 15 of the second word is the sign, its low 15
bits are the four fraction digits, and the first word is the integer
magnitude. -/
def decodeFractSign (p : Nat × Nat) : ℚ :=
  (if p.2 >>> 15 = 1 then -1 else 1) * ((p.1 : ℚ) + ((p.2 &&& 0x7fff : Nat) : ℚ) / 10000)

theorem and_32767_of_lt (x : Nat) (h : x < 32768) : x &&& 0x7fff = x := by
  have h15 : (0x7fff : Nat) = 2 ^ 15 - 1 := by norm_num
  rw [h15, Nat.and_pow_two_sub_one_eq_mod]
  exact Nat.mod_eq_of_lt (by norm_num at h ⊢; omega)

theorem or_32768_of_lt (x : Nat) (h : x < 32768) : (1 <<< 15) ||| x = 32768 + x := by
  have hshift : (1 : Nat) <<< 15 = 32768 := by decide
  rw [hshift]
  have hlt : x < 2 ^ 15 := by norm_num; omega
  have := Nat.mul_add_lt_is_or hlt 1
  simp only [Nat.mul_one] at this
  norm_num at this ⊢
  omega

theorem decode_fractSign_eq (d : DecFloat) (hfr : d.fr < 10000) :
    decodeFractSign (fractSign d) = d.toRat := by
  by_cases hz : d.isZero
  · have hip : d.ip = 0 := by
      simp only [DecFloat.isZero, Bool.and_eq_true, decide_eq_true_eq] at hz
      exact hz.1
    have hfr0 : d.fr = 0 := by
      simp only [DecFloat.isZero, Bool.and_eq_true, decide_eq_true_eq] at hz
      exact hz.2
    simp [fractSign, hz, decodeFractSign, DecFloat.toRat, hip, hfr0]
  · have hfr15 : d.fr < 32768 := by omega
    have hand : d.fr &&& 0x7fff = d.fr := and_32767_of_lt d.fr hfr15
    cases hneg : d.neg with
    | false =>
      have hzero_shift : ((0 : Nat) <<< 15) = 0 := by decide
      simp only [fractSign, hz, if_false, hneg, Bool.false_eq_true, if_neg,
        hzero_shift, Nat.zero_or, hand, ite_false]
      have hsr : d.fr >>> 15 = 0 := by
        rw [Nat.shiftRight_eq_div_pow]
        norm_num
        omega
      simp [decodeFractSign, hsr, DecFloat.toRat, hneg, hand]
    | true =>
      simp only [fractSign, hz, if_false, hneg, if_true, hand,
        or_32768_of_lt d.fr hfr15]
      have hsr : (32768 + d.fr) >>> 15 = 1 := by
        rw [Nat.shiftRight_eq_div_pow]
        norm_num
        omega
      have hand2 : (32768 + d.fr) &&& 0x7fff = d.fr := by
        have h15 : (0x7fff : Nat) = 2 ^ 15 - 1 := by norm_num
        rw [h15, Nat.and_pow_two_sub_one_eq_mod]
        norm_num
        omega
      simp [decodeFractSign, hsr, hand2, DecFloat.toRat, hneg]

/-- C6: for every float with at most four decimal digits and magnitude below
65536, decoding the (integerPart, fractionSignPart) pair produced by the
fractional encoding of Pendant._makeDisplayCommand reconstructs the value to
within 1e-4 (in fact exactly). -/
theorem C6_fraction_roundtrip (d : DecFloat) (_hip : d.ip < 65536) (hfr : d.fr < 10000) :
    |decodeFractSign (fractSign d) - d.toRat| ≤ 1 / 10000 := by
  rw [decode_fractSign_eq d hfr]
  simp

/-- Witness for C6 at the float -2.5 (neg, ip 2, fr 5000). -/
theorem C6_fraction_roundtrip_witness :
    |decodeFractSign (fractSign (DecFloat.mk true 2 5000))
        - (DecFloat.mk true 2 5000).toRat| ≤ 1 / 10000 :=
  C6_fraction_roundtrip (DecFloat.mk true 2 5000) (by norm_num) (by norm_num)

end Pendant

namespace Py

/-- Python exception kinds raised by the modelled code paths. -/
inductive PyErr where
  | assertionError
  | typeError
  | structError
  | keyError
  | indexError
  deriving Repr, DecidableEq

end Py

namespace Pendant

/-- A Python value passed for a coordinate, feedrate or spindle speed: the
dynamic type distinguishes int from float (isinstance checks and the string
formatting in the fractSign lambda depend on it). -/
inductive PyVal where
  | intVal (n : Int)
  | floatVal (d : DecFloat)
  deriving Repr, DecidableEq

/-- Python isinstance(v, float). -/
def PyVal.isFloat : PyVal → Bool
  | PyVal.intVal _ => false
  | PyVal.floatVal _ => true

/-- The fractSign lambda applied to a dynamic value: the int 0 (the default
of the coordinate parameters) is falsy and yields (0, 0) before any string
operation; a nonzero int raises IndexError because str(n) contains no
decimal point to split on (none); a float goes through fractSign. -/
def fractSignPy : PyVal → Option (Nat × Nat)
  | PyVal.intVal n => if n = 0 then some (0, 0) else none
  | PyVal.floatVal d => some (fractSign d)

/-- One field of a struct.pack format: an unsigned 16 bit word ("H") or an
unsigned byte ("B"). -/
inductive PackField where
  | fieldH (v : Int)
  | fieldB (v : Int)
  deriving Repr, DecidableEq

/-- Pack one field, native little endian: struct.error (none) unless the
value is in range, else the bytes low first. -/
def packField : PackField → Option (List Nat)
  | PackField.fieldH v =>
    if 0 ≤ v ∧ v < 65536 then some [v.toNat % 256, v.toNat / 256] else none
  | PackField.fieldB v =>
    if 0 ≤ v ∧ v < 256 then some [v.toNat] else none

/-- Byte width of a packed field. -/
def fieldSize : PackField → Nat
  | PackField.fieldH _ => 2
  | PackField.fieldB _ => 1

/-- struct.pack over a field list: concatenation of the packed fields, or
struct.error (none) if any field is out of range. -/
def structPack : List PackField → Option (List Nat)
  | [] => some []
  | f :: fs =>
    match packField f, structPack fs with
    | some b, some rest => some (b ++ rest)
    | _, _ => none

/-- Pendant._makeDisplayCommand (Pendant.py lines 200-214): header 0xfdfe,
seed 0x12, the flags byte ((coordinateSpace << 7) & 0x80) | ((reset << 6) &
0x40) | (motionMode & 0x03), three fractSign pairs, feedrate and
spindleSpeed, packed with struct.pack("HBBHHHHHHHH") — on this format the
native alignment adds no padding, so the payload is 2 + 1 + 1 + 8 * 2 = 20
bytes, little endian.  motionMode, coordinateSpace and reset are the small
non-negative ints of the MotionMode / CoordinateSpace enums at every call
site, so they are taken as Nat.  Returns none where Python raises (fractSign
IndexError or struct.error on an out-of-range field). -/
def makeDisplayCommand (motionMode coordinateSpace : Nat) (c1 c2 c3 : PyVal)
    (feedrate spindleSpeed : Int) (reset : Nat) : Option (List Nat) :=
  let flags := ((coordinateSpace <<< 7) &&& 0x80) ||| ((reset <<< 6) &&& 0x40)
      ||| (motionMode &&& 0x03)
  match fractSignPy c1, fractSignPy c2, fractSignPy c3 with
  | some p1, some p2, some p3 =>
    structPack
      [PackField.fieldH 0xfdfe, PackField.fieldB 0x12, PackField.fieldB (flags : Int),
       PackField.fieldH (p1.1 : Int), PackField.fieldH (p1.2 : Int),
       PackField.fieldH (p2.1 : Int), PackField.fieldH (p2.2 : Int),
       PackField.fieldH (p3.1 : Int), PackField.fieldH (p3.2 : Int),
       PackField.fieldH feedrate, PackField.fieldH spindleSpeed]
  | _, _, _ => none

/-- The successive 7-byte slices data[i:i+7] taken by Pendant.sendOutput. -/
def chunks7 (data : List Nat) : List (List Nat) :=
  match data with
  | [] => []
  | a :: rest => ((a :: rest).take 7) :: chunks7 ((a :: rest).drop 7)
termination_by data.length
decreasing_by simp; omega

/-- Zero padding of the final slice
(dataPackets[-1] += bytes(7 - len(dataPackets[-1]))); indexing the last
element of an empty list raises IndexError (none). -/
def padLastOpt : List (List Nat) → Option (List (List Nat))
  | [] => none
  | [l] => some [l ++ List.replicate (7 - l.length) 0]
  | l :: ls => (padLastOpt ls).map (fun r => l :: r)

/-- Pendant.sendOutput (Pendant.py lines 285-296): slice the payload into
7-byte packets, zero pad the last, prepend the report id byte 0x06 to each,
and write each 8-byte report.  Returns the list of HID writes. -/
def sendOutput (data : List Nat) : Option (List (List Nat)) :=
  (padLastOpt (chunks7 data)).map (List.map (fun p => 0x06 :: p))

theorem fractSign_fst_lt (d : DecFloat) (hip : d.ip < 65536) :
    (fractSign d).1 < 65536 := by
  by_cases hz : d.isZero <;> simp [fractSign, hz, hip]

theorem fractSign_snd_lt (d : DecFloat) : (fractSign d).2 < 65536 := by
  by_cases hz : d.isZero
  · simp [fractSign, hz]
  · simp only [fractSign, hz, if_false]
    have h1 : ((if d.neg then 1 else 0) <<< 15) < 2 ^ 16 := by
      by_cases hn : d.neg <;> simp [hn]
    have h2 : (d.fr &&& 0x7fff) < 2 ^ 16 := by
      have := Nat.and_le_right (n := d.fr) (m := 0x7fff)
      omega
    have := Nat.or_lt_two_pow h1 h2
    norm_num at this ⊢
    omega

theorem packField_length (f : PackField) (b : List Nat)
    (h : packField f = some b) : b.length = fieldSize f := by
  cases f with
  | fieldH v =>
    simp only [packField] at h
    split at h
    · simp only [Option.some.injEq] at h
      rw [← h]
      rfl
    · exact absurd h (by simp)
  | fieldB v =>
    simp only [packField] at h
    split at h
    · simp only [Option.some.injEq] at h
      rw [← h]
      rfl
    · exact absurd h (by simp)

theorem structPack_some (fs : List PackField)
    (h : ∀ f ∈ fs, packField f ≠ none) :
    ∃ p, structPack fs = some p ∧ p.length = (fs.map fieldSize).sum := by
  induction fs with
  | nil => exact ⟨[], rfl, rfl⟩
  | cons f fs ih =>
    obtain ⟨b, hb⟩ := Option.ne_none_iff_exists'.mp (h f (List.mem_cons_self f fs))
    obtain ⟨p, hp, hlen⟩ := ih (fun g hg => h g (List.mem_cons_of_mem f hg))
    refine ⟨b ++ p, ?_, ?_⟩
    · simp [structPack, hb, hp]
    · simp [List.length_append, hlen, packField_length f b hb]

theorem structPack_none (fs : List PackField) (f : PackField)
    (hmem : f ∈ fs) (h : packField f = none) :
    structPack fs = none := by
  induction fs with
  | nil => exact absurd hmem (List.not_mem_nil f)
  | cons g fs ih =>
    rcases List.mem_cons.mp hmem with hg | hg
    · subst hg
      simp [structPack, h]
    · rw [structPack, ih hg]
      cases packField g <;> rfl

theorem flags_lt (motionMode coordinateSpace reset : Nat) :
    ((coordinateSpace <<< 7) &&& 0x80) ||| ((reset <<< 6) &&& 0x40)
      ||| (motionMode &&& 0x03) < 256 := by
  have h1 : ((coordinateSpace <<< 7) &&& 0x80) < 2 ^ 8 := by
    have := Nat.and_le_right (n := coordinateSpace <<< 7) (m := 0x80)
    omega
  have h2 : ((reset <<< 6) &&& 0x40) < 2 ^ 8 := by
    have := Nat.and_le_right (n := reset <<< 6) (m := 0x40)
    omega
  have h3 : (motionMode &&& 0x03) < 2 ^ 8 := by
    have := Nat.and_le_right (n := motionMode) (m := 0x03)
    omega
  have h12 := Nat.or_lt_two_pow h1 h2
  have := Nat.or_lt_two_pow h12 h3
  omega

theorem makeDisplayCommand_floats (motionMode coordinateSpace reset : Nat)
    (d1 d2 d3 : DecFloat) (fr sp : Int)
    (h1 : d1.ip < 65536) (h2 : d2.ip < 65536) (h3 : d3.ip < 65536)
    (hfr0 : 0 ≤ fr) (hfr1 : fr < 65536) (hsp0 : 0 ≤ sp) (hsp1 : sp < 65536) :
    ∃ p, makeDisplayCommand motionMode coordinateSpace
        (PyVal.floatVal d1) (PyVal.floatVal d2) (PyVal.floatVal d3)
        fr sp reset = some p ∧ p.length = 20 := by
  have hfl := flags_lt motionMode coordinateSpace reset
  simp only [makeDisplayCommand, fractSignPy]
  have hall : ∀ f ∈
      [PackField.fieldH 0xfdfe, PackField.fieldB 0x12,
       PackField.fieldB ((((coordinateSpace <<< 7) &&& 0x80)
         ||| ((reset <<< 6) &&& 0x40) ||| (motionMode &&& 0x03) : Nat) : Int),
       PackField.fieldH ((fractSign d1).1 : Int), PackField.fieldH ((fractSign d1).2 : Int),
       PackField.fieldH ((fractSign d2).1 : Int), PackField.fieldH ((fractSign d2).2 : Int),
       PackField.fieldH ((fractSign d3).1 : Int), PackField.fieldH ((fractSign d3).2 : Int),
       PackField.fieldH fr, PackField.fieldH sp], packField f ≠ none := by
    intro f hf
    have hb1 := fractSign_fst_lt d1 h1
    have hb2 := fractSign_snd_lt d1
    have hb3 := fractSign_fst_lt d2 h2
    have hb4 := fractSign_snd_lt d2
    have hb5 := fractSign_fst_lt d3 h3
    have hb6 := fractSign_snd_lt d3
    fin_cases hf <;>
      simp only [packField, ne_eq, ite_eq_right_iff, Option.some_ne_none,
        imp_false, not_and, not_lt, not_forall, not_le] <;>
      constructor <;>
      omega
  obtain ⟨p, hp, hlen⟩ := structPack_some _ hall
  refine ⟨p, hp, ?_⟩
  rw [hlen]
  rfl

theorem chunks7_ne_nil (data : List Nat) (h : data ≠ []) :
    chunks7 data = data.take 7 :: chunks7 (data.drop 7) := by
  cases data with
  | nil => exact absurd rfl h
  | cons a rest => rw [chunks7]

theorem sendOutput_length20 (p : List Nat) (hp : p.length = 20) :
    sendOutput p =
      some [0x06 :: p.take 7, 0x06 :: (p.drop 7).take 7,
            0x06 :: (p.drop 14 ++ [0])] := by
  have hne0 : p ≠ [] := by
    intro h; rw [h] at hp; simp at hp
  have hlen7 : (p.drop 7).length = 13 := by simp [hp]
  have hne7 : p.drop 7 ≠ [] := by
    intro h; rw [h] at hlen7; simp at hlen7
  have hdd : (p.drop 7).drop 7 = p.drop 14 := by
    rw [List.drop_drop]
  have hlen14 : (p.drop 14).length = 6 := by simp [hp]
  have hne14 : p.drop 14 ≠ [] := by
    intro h; rw [h] at hlen14; simp at hlen14
  have hnil : (p.drop 14).drop 7 = [] := by
    apply List.drop_eq_nil_of_le
    omega
  have htake14 : (p.drop 14).take 7 = p.drop 14 :=
    List.take_of_length_le (by omega)
  rw [sendOutput, chunks7_ne_nil p hne0, chunks7_ne_nil (p.drop 7) hne7, hdd,
    chunks7_ne_nil (p.drop 14) hne14, hnil, htake14]
  simp only [chunks7, padLastOpt, hlen14]
  norm_num

/-- C7 counterexample: the display payload built by _makeDisplayCommand is
20 bytes (struct.pack("HBBHHHHHHHH") packs a 16 bit header, two bytes and
eight further 16 bit words), not 22; shown on the all-zero display command
that the reset handshake sends. -/
theorem C7_payload_size_counterexample :
    (makeDisplayCommand 0 0 (PyVal.intVal 0) (PyVal.intVal 0) (PyVal.intVal 0)
        0 0 0).map List.length = some 20 ∧
    (makeDisplayCommand 0 0 (PyVal.intVal 0) (PyVal.intVal 0) (PyVal.intVal 0)
        0 0 0).map List.length ≠ some 22 := by
  constructor
  · decide
  · decide

/-- C7 amended: every display update produces a 20-byte payload (not 22),
and sendOutput emits it as exactly three HID report writes of 8 bytes each:
the report id byte 0x06 followed by a 7-byte slice of the payload, the final
slice zero-padded to 7 bytes. -/
theorem C7_display_update_amended (motionMode coordinateSpace reset : Nat)
    (d1 d2 d3 : DecFloat) (fr sp : Int)
    (h1 : d1.ip < 65536) (h2 : d2.ip < 65536) (h3 : d3.ip < 65536)
    (hfr0 : 0 ≤ fr) (hfr1 : fr < 65536) (hsp0 : 0 ≤ sp) (hsp1 : sp < 65536) :
    ∃ p, makeDisplayCommand motionMode coordinateSpace
        (PyVal.floatVal d1) (PyVal.floatVal d2) (PyVal.floatVal d3)
        fr sp reset = some p ∧
      p.length = 20 ∧
      sendOutput p =
        some [0x06 :: p.take 7, 0x06 :: (p.drop 7).take 7,
              0x06 :: (p.drop 14 ++ [0])] ∧
      ∀ pkt ∈ [0x06 :: p.take 7, 0x06 :: (p.drop 7).take 7,
               0x06 :: (p.drop 14 ++ [0])], pkt.length = 8 := by
  obtain ⟨p, hmk, hlen⟩ := makeDisplayCommand_floats motionMode coordinateSpace reset
    d1 d2 d3 fr sp h1 h2 h3 hfr0 hfr1 hsp0 hsp1
  refine ⟨p, hmk, hlen, sendOutput_length20 p hlen, ?_⟩
  intro pkt hpkt
  simp only [List.mem_cons, List.mem_singleton] at hpkt
  rcases hpkt with h | h | h | h
  · subst h; simp [hlen]
  · subst h; simp [hlen]
  · subst h; simp [hlen]
  · exact absurd h (List.not_mem_nil pkt)

/-- Witness for C7 amended at motionMode 1, machine coordinates, the floats
1.5, -2.5 and 0.0, feedrate 500 and spindle 0. -/
theorem C7_display_update_amended_witness :
    ∃ p, makeDisplayCommand 1 0
        (PyVal.floatVal (DecFloat.mk false 1 5000))
        (PyVal.floatVal (DecFloat.mk true 2 5000))
        (PyVal.floatVal (DecFloat.mk false 0 0))
        500 0 0 = some p ∧
      p.length = 20 ∧
      sendOutput p =
        some [0x06 :: p.take 7, 0x06 :: (p.drop 7).take 7,
              0x06 :: (p.drop 14 ++ [0])] ∧
      ∀ pkt ∈ [0x06 :: p.take 7, 0x06 :: (p.drop 7).take 7,
               0x06 :: (p.drop 14 ++ [0])], pkt.length = 8 :=
  C7_display_update_amended 1 0 0
    (DecFloat.mk false 1 5000) (DecFloat.mk true 2 5000) (DecFloat.mk false 0 0)
    500 0 (by norm_num) (by norm_num) (by norm_num)
    (by norm_num) (by norm_num) (by norm_num) (by norm_num)

end Pendant

namespace Pendant

/-- Python check "is a non-negative int": isinstance(v, int) and v >= 0. -/
def PyVal.isNonnegInt : PyVal → Bool
  | PyVal.intVal n => decide (0 ≤ n)
  | PyVal.floatVal _ => false

/-- Pendant.updateDisplay (Pendant.py lines 298-311).  The assert chain is
modelled in source order.  The feedrate assert on line 304 reads
assert isinstance(feedrate, int) & feedrate >= 0, which Python parses as
(isinstance(feedrate, int) & feedrate) >= 0: for an int feedrate this is
(1 & feedrate) >= 0, true for every int including negative ones, and for a
float feedrate the bitwise and of a bool and a float raises TypeError.  The
spindleSpeed assert on line 305 uses the boolean and, rejecting floats and
negative ints.  A negative (or too large) feedrate therefore slips through
to struct.pack inside _makeDisplayCommand, which raises struct.error before
any HID write.  motionMode and coordinateSpace are ints at every call site
(MotionMode / CoordinateSpace enum values). -/
def updateDisplay (motionMode coordinateSpace : Int) (coordinates : List PyVal)
    (feedrate spindleSpeed : PyVal) : Except Py.PyErr (List (List Nat)) :=
  if ¬ (0 ≤ motionMode ∧ motionMode ≤ 3) then Except.error Py.PyErr.assertionError
  else if ¬ (coordinateSpace = 0 ∨ coordinateSpace = 1) then
    Except.error Py.PyErr.assertionError
  else if ¬ (coordinates.length = 3 ∧ coordinates.all PyVal.isFloat) then
    Except.error Py.PyErr.assertionError
  else
    match feedrate with
    | PyVal.floatVal _ => Except.error Py.PyErr.typeError
    | PyVal.intVal fr =>
      match spindleSpeed with
      | PyVal.floatVal _ => Except.error Py.PyErr.assertionError
      | PyVal.intVal sp =>
        if ¬ (0 ≤ sp) then Except.error Py.PyErr.assertionError
        else
          match coordinates with
          | [c1, c2, c3] =>
            match makeDisplayCommand motionMode.toNat coordinateSpace.toNat
                c1 c2 c3 fr sp 0 with
            | none => Except.error Py.PyErr.structError
            | some p =>
              match sendOutput p with
              | none => Except.error Py.PyErr.indexError
              | some writes => Except.ok writes
          | _ => Except.error Py.PyErr.assertionError

/-- C8 counterexample: motionMode 0, coordinateSpace 0, three float zeros,
the non-negative int feedrate 65536 and spindle 0 satisfy every condition
the claim lists, yet updateDisplay raises struct.error (the feedrate does
not fit an unsigned 16 bit field), so the no-raise direction of the claim
fails. -/
theorem C8_update_display_counterexample :
    updateDisplay 0 0
        [PyVal.floatVal (DecFloat.mk false 0 0), PyVal.floatVal (DecFloat.mk false 0 0),
         PyVal.floatVal (DecFloat.mk false 0 0)]
        (PyVal.intVal 65536) (PyVal.intVal 0)
      = Except.error Py.PyErr.structError := by
  rfl

/-- C8 amended: updateDisplay rejects (raises before any HID write) every
argument tuple in which motionMode is outside 0..3, coordinateSpace is
neither 0 nor 1, coordinates is not a length-3 vector of floats, or feedrate
or spindleSpeed is not a non-negative integer; and on arguments satisfying
all of these it does not raise provided additionally feedrate and
spindleSpeed are below 65536 and each coordinate integer part is below 65536
(otherwise struct.pack raises, as the counterexample shows). -/
theorem C8_update_display_amended :
    (∀ (motionMode coordinateSpace : Int) (coordinates : List PyVal)
        (feedrate spindleSpeed : PyVal),
      (¬ (0 ≤ motionMode ∧ motionMode ≤ 3) ∨
       ¬ (coordinateSpace = 0 ∨ coordinateSpace = 1) ∨
       ¬ (coordinates.length = 3 ∧ coordinates.all PyVal.isFloat) ∨
       ¬ feedrate.isNonnegInt ∨ ¬ spindleSpeed.isNonnegInt) →
      ∃ e, updateDisplay motionMode coordinateSpace coordinates
        feedrate spindleSpeed = Except.error e) ∧
    (∀ (motionMode coordinateSpace : Int) (d1 d2 d3 : DecFloat) (fr sp : Int),
      0 ≤ motionMode → motionMode ≤ 3 →
      (coordinateSpace = 0 ∨ coordinateSpace = 1) →
      d1.ip < 65536 → d2.ip < 65536 → d3.ip < 65536 →
      0 ≤ fr → fr < 65536 → 0 ≤ sp → sp < 65536 →
      ∃ w, updateDisplay motionMode coordinateSpace
        [PyVal.floatVal d1, PyVal.floatVal d2, PyVal.floatVal d3]
        (PyVal.intVal fr) (PyVal.intVal sp) = Except.ok w) := by
  constructor
  · intro motionMode coordinateSpace coordinates feedrate spindleSpeed hviol
    by_cases hm : 0 ≤ motionMode ∧ motionMode ≤ 3
    case neg =>
      refine ⟨Py.PyErr.assertionError, ?_⟩
      unfold updateDisplay
      rw [if_pos hm]
    by_cases hcs : coordinateSpace = 0 ∨ coordinateSpace = 1
    case neg =>
      refine ⟨Py.PyErr.assertionError, ?_⟩
      unfold updateDisplay
      rw [if_neg (not_not_intro hm), if_pos hcs]
    by_cases hco : coordinates.length = 3 ∧ coordinates.all PyVal.isFloat
    case neg =>
      refine ⟨Py.PyErr.assertionError, ?_⟩
      unfold updateDisplay
      rw [if_neg (not_not_intro hm), if_neg (not_not_intro hcs), if_pos hco]
    cases feedrate with
    | floatVal d =>
      refine ⟨Py.PyErr.typeError, ?_⟩
      unfold updateDisplay
      rw [if_neg (not_not_intro hm), if_neg (not_not_intro hcs), if_neg (not_not_intro hco)]
    | intVal fr =>
      cases spindleSpeed with
      | floatVal d =>
        refine ⟨Py.PyErr.assertionError, ?_⟩
        unfold updateDisplay
        rw [if_neg (not_not_intro hm), if_neg (not_not_intro hcs), if_neg (not_not_intro hco)]
      | intVal sp =>
        by_cases hsp : 0 ≤ sp
        case neg =>
          refine ⟨Py.PyErr.assertionError, ?_⟩
          unfold updateDisplay
          rw [if_neg (not_not_intro hm), if_neg (not_not_intro hcs),
            if_neg (not_not_intro hco)]
          simp [hsp]
        have hfr : ¬ (0 ≤ fr) := by
          rcases hviol with h | h | h | h | h
          · exact absurd hm h
          · exact absurd hcs h
          · exact absurd hco h
          · simpa [PyVal.isNonnegInt] using h
          · exact absurd (by simpa [PyVal.isNonnegInt] using hsp) h
        obtain ⟨c1, c2, c3, hc⟩ :
            ∃ c1 c2 c3, coordinates = [c1, c2, c3] := by
          obtain ⟨hlen, _⟩ := hco
          match coordinates, hlen with
          | [a, b, c], _ => exact ⟨a, b, c, rfl⟩
        subst hc
        have hfloats := hco.2
        simp only [List.all_cons, List.all_nil, Bool.and_eq_true, and_true] at hfloats
        obtain ⟨d1, hd1⟩ : ∃ d, c1 = PyVal.floatVal d := by
          cases c1 with
          | intVal n => simp [PyVal.isFloat] at hfloats
          | floatVal d => exact ⟨d, rfl⟩
        obtain ⟨d2, hd2⟩ : ∃ d, c2 = PyVal.floatVal d := by
          cases c2 with
          | intVal n => simp [PyVal.isFloat] at hfloats
          | floatVal d => exact ⟨d, rfl⟩
        obtain ⟨d3, hd3⟩ : ∃ d, c3 = PyVal.floatVal d := by
          cases c3 with
          | intVal n => simp [PyVal.isFloat] at hfloats
          | floatVal d => exact ⟨d, rfl⟩
        subst hd1; subst hd2; subst hd3
        have hnone : makeDisplayCommand motionMode.toNat coordinateSpace.toNat
            (PyVal.floatVal d1) (PyVal.floatVal d2) (PyVal.floatVal d3) fr sp 0 = none := by
          simp only [makeDisplayCommand, fractSignPy]
          refine structPack_none _ (PackField.fieldH fr) (by simp) ?_
          simp only [packField, ite_eq_right_iff]
          intro hrange
          exact absurd hrange.1 hfr
        refine ⟨Py.PyErr.structError, ?_⟩
        unfold updateDisplay
        rw [if_neg (not_not_intro hm), if_neg (not_not_intro hcs),
          if_neg (not_not_intro hco)]
        simp [hsp, hnone]
  · intro motionMode coordinateSpace d1 d2 d3 fr sp hm0 hm3 hcs h1 h2 h3 hfr0 hfr1 hsp0 hsp1
    obtain ⟨p, hp, hlen⟩ := makeDisplayCommand_floats motionMode.toNat
      coordinateSpace.toNat 0 d1 d2 d3 fr sp h1 h2 h3 hfr0 hfr1 hsp0 hsp1
    refine ⟨List.map (fun q => 0x06 :: q)
      [p.take 7, (p.drop 7).take 7, p.drop 14 ++ [0]], ?_⟩
    have hm : 0 ≤ motionMode ∧ motionMode ≤ 3 := ⟨hm0, hm3⟩
    have hso := sendOutput_length20 p hlen
    unfold updateDisplay
    rw [if_neg (not_not_intro hm), if_neg (not_not_intro hcs),
      if_neg (not_not_intro (show ([PyVal.floatVal d1, PyVal.floatVal d2,
        PyVal.floatVal d3].length = 3 ∧ [PyVal.floatVal d1, PyVal.floatVal d2,
        PyVal.floatVal d3].all PyVal.isFloat) from by simp [PyVal.isFloat]))]
    simp [hsp0, hp, hso]

/-- Witness for C8 amended: motionMode 5 is rejected, and a fully valid call
(motionMode 1, machine space, zero coordinates, feedrate 500, spindle 0)
succeeds. -/
theorem C8_update_display_amended_witness :
    (∃ e, updateDisplay 5 0
        [PyVal.floatVal (DecFloat.mk false 0 0), PyVal.floatVal (DecFloat.mk false 0 0),
         PyVal.floatVal (DecFloat.mk false 0 0)]
        (PyVal.intVal 500) (PyVal.intVal 0) = Except.error e) ∧
    (∃ w, updateDisplay 1 0
        [PyVal.floatVal (DecFloat.mk false 0 0), PyVal.floatVal (DecFloat.mk false 0 0),
         PyVal.floatVal (DecFloat.mk false 0 0)]
        (PyVal.intVal 500) (PyVal.intVal 0) = Except.ok w) :=
  ⟨C8_update_display_amended.1 5 0
      [PyVal.floatVal (DecFloat.mk false 0 0), PyVal.floatVal (DecFloat.mk false 0 0),
       PyVal.floatVal (DecFloat.mk false 0 0)]
      (PyVal.intVal 500) (PyVal.intVal 0) (by norm_num),
   C8_update_display_amended.2 1 0
      (DecFloat.mk false 0 0) (DecFloat.mk false 0 0) (DecFloat.mk false 0 0)
      500 0 (by norm_num) (by norm_num) (by norm_num) (by norm_num) (by norm_num)
      (by norm_num) (by norm_num) (by norm_num) (by norm_num) (by norm_num)⟩

end Pendant

namespace Pendant

/-- Pendant.MotionMode.CONT (Pendant.py line 111). -/
def CONT : Nat := 0x00

/-- Pendant.MotionMode.STEP (Pendant.py line 112). -/
def STEP : Nat := 0x01

/-- AXIS map from Pendant.py lines 92-101: axis selector byte to axis name. -/
def AXIS : List (Nat × String) :=
  [(0x00, "Noop"), (0x06, "Off"), (0x11, "X"), (0x12, "Y"), (0x13, "Z"),
   (0x14, "A"), (0x15, "B"), (0x16, "C")]

/-- Pendant.INCR (Pendant.py lines 138-159): per motion mode, increment
selector byte to increment value; None entries are the unsupported
positions.  Python raises KeyError (modelled none at the outer level) for a
motion mode other than STEP or CONT, and for an unknown increment byte. -/
def INCR (moveMode : Nat) : Option (List (Nat × Option ℚ)) :=
  if moveMode = STEP then
    some [(0x00, none), (0x0d, some (1/1000 : ℚ)), (0x0e, some (1/100 : ℚ)),
          (0x0f, some (1/10 : ℚ)), (0x10, some (1 : ℚ)), (0x1a, some (5 : ℚ)),
          (0x1b, some (10 : ℚ)), (0x9b, none)]
  else if moveMode = CONT then
    some [(0x00, none), (0x0d, some (1/50 : ℚ)), (0x0e, some (1/20 : ℚ)),
          (0x0f, some (1/10 : ℚ)), (0x10, some (3/10 : ℚ)), (0x1a, some (3/5 : ℚ)),
          (0x1b, some (1 : ℚ)), (0x9b, none)]
  else none

end Pendant

namespace Controller

/-- The constituents of the jog line that Controller.jogIncrementalAxis
formats and hands to _sendCmd, a line of the shape
$J=G21 G91 <axis><distance> F<feedrate>. -/
structure JogCmd where
  axis : String
  distance : Processor.PyScalar
  feedrate : Processor.PyScalar
  deriving Repr, DecidableEq

/-- Controller.jogIncrementalAxis (Controller.py lines 318-331): assert that
the axis is a substring of "XYZ" (the Python test axis in "XYZ"), assert
that the distance is a float, then send the formatted $J= line.  Either
failed assert raises AssertionError before anything is written to the
serial link. -/
def jogIncrementalAxis (axis : String) (distance : Processor.PyScalar)
    (feedrate : Processor.PyScalar) : Except Py.PyErr JogCmd :=
  if Py.pyInStr axis "XYZ" = true then
    if distance.isFloat = true then
      Except.ok (JogCmd.mk axis distance feedrate)
    else Except.error Py.PyErr.assertionError
  else Except.error Py.PyErr.assertionError

end Controller

namespace Processor

/-- JOG_SPEED from Processor.py line 21. -/
def JOG_SPEED : Int := 500

/-- MAX_SPEED from Processor.py line 22. -/
def MAX_SPEED : Int := 1000

/-- Axis mode values from Pendant.AxisMode (Pendant.py lines 104-107). -/
inductive AxisMode where
  | OFF
  | XYZ
  | ABC
  deriving Repr, DecidableEq

/-- The axisMode derivation on Processor.py line 292: OFF when the axis byte
is 6, XYZ when it is below 20, ABC otherwise. -/
def axisModeOf (axisByte : Nat) : AxisMode :=
  if axisByte = 6 then AxisMode.OFF
  else if axisByte < 20 then AxisMode.XYZ
  else AxisMode.ABC

/-- The jog dispatch of Processor.pendantInput (Processor.py lines 379-393),
with the axisMode of line 292 for the same input: when the jog value is
nonzero and the axis mode is XYZ, look up the increment for the current
motion mode (KeyError on an unknown mode or byte), skip when the increment
is None, otherwise compute distance and speed — STEP gives the float
jog * incr with JOG_SPEED, CONT gives the int 1 with the float
MAX_SPEED * incr * sign(jog) — and call Controller.jogIncrementalAxis with
the axis name from Pendant.AXIS.  Returns the streamed jog command, none
when nothing is sent, or the Python exception raised. -/
def jogDispatch (moveMode : Nat) (jog : Int) (incrByte axisByte : Nat) :
    Except Py.PyErr (Option Controller.JogCmd) :=
  if jog = 0 then Except.ok none
  else
    match axisModeOf axisByte with
    | AxisMode.XYZ =>
      match Pendant.INCR moveMode with
      | none => Except.error Py.PyErr.keyError
      | some table =>
        match table.lookup incrByte with
        | none => Except.error Py.PyErr.keyError
        | some none => Except.ok none
        | some (some incr) =>
          let ds : PyScalar × PyScalar :=
            if moveMode = Pendant.STEP then
              (PyScalar.floatVal ((jog : ℚ) * incr), PyScalar.intVal JOG_SPEED)
            else
              (PyScalar.intVal 1,
               PyScalar.floatVal ((MAX_SPEED : ℚ) * incr * (if 0 < jog then 1 else -1)))
          match Pendant.AXIS.lookup axisByte with
          | none => Except.error Py.PyErr.keyError
          | some axis =>
            match Controller.jogIncrementalAxis axis ds.1 ds.2 with
            | Except.error e => Except.error e
            | Except.ok cmd => Except.ok (some cmd)
    | AxisMode.ABC => Except.ok none
    | AxisMode.OFF => Except.ok none

/-- C9: with nonzero jog, an axis byte selecting X, Y or Z, motion mode CONT
and an increment byte mapped to a defined continuous increment, the jog
dispatch raises AssertionError before anything reaches the serial link: the
computed distance is the Python int 1 while jogIncrementalAxis asserts the
distance is a float, so continuous jogging never produces a $J= command. -/
theorem C9_cont_jog_asserts (axisByte incrByte : Nat) (jog : Int)
    (hax : axisByte = 0x11 ∨ axisByte = 0x12 ∨ axisByte = 0x13)
    (hjog : jog ≠ 0)
    (hincr : incrByte ∈ [0x0d, 0x0e, 0x0f, 0x10, 0x1a, 0x1b]) :
    jogDispatch Pendant.CONT jog incrByte axisByte
      = Except.error Py.PyErr.assertionError := by
  have hX : Py.pyInStr "X" "XYZ" = true := by decide
  have hY : Py.pyInStr "Y" "XYZ" = true := by decide
  have hZ : Py.pyInStr "Z" "XYZ" = true := by decide
  rcases hax with rfl | rfl | rfl <;>
    fin_cases hincr <;>
    · unfold jogDispatch
      rw [if_neg hjog]
      simp [axisModeOf, Pendant.INCR, Pendant.CONT, Pendant.STEP, Pendant.AXIS,
        List.lookup, Controller.jogIncrementalAxis, hX, hY, hZ, PyScalar.isFloat]

/-- Witness for C9 at axis X (0x11), increment byte 0x0d, jog 1. -/
theorem C9_cont_jog_asserts_witness :
    jogDispatch Pendant.CONT 1 0x0d 0x11 = Except.error Py.PyErr.assertionError :=
  C9_cont_jog_asserts 0x11 0x0d 1 (by norm_num) (by norm_num) (by decide)

/-- C10: an input with axis byte 0x00 derives axisMode XYZ (0 is not 6 and
is below 20), not OFF; and with nonzero jog, motion mode CONT or STEP and a
defined increment byte the dispatch raises AssertionError, because
AXIS[0x00] is the string Noop, which fails the axis-in-XYZ assert of
jogIncrementalAxis. -/
theorem C10_noop_axis_asserts (incrByte : Nat) (jog : Int) (moveMode : Nat)
    (hmode : moveMode = Pendant.CONT ∨ moveMode = Pendant.STEP)
    (hjog : jog ≠ 0)
    (hincr : incrByte ∈ [0x0d, 0x0e, 0x0f, 0x10, 0x1a, 0x1b]) :
    axisModeOf 0x00 = AxisMode.XYZ ∧
    jogDispatch moveMode jog incrByte 0x00
      = Except.error Py.PyErr.assertionError := by
  have hN : Py.pyInStr "Noop" "XYZ" = false := by decide
  constructor
  · decide
  · rcases hmode with rfl | rfl <;>
      fin_cases hincr <;>
      · unfold jogDispatch
        rw [if_neg hjog]
        simp [axisModeOf, Pendant.INCR, Pendant.CONT, Pendant.STEP, Pendant.AXIS,
          List.lookup, Controller.jogIncrementalAxis, hN]

/-- Witness for C10 at increment byte 0x0d, jog -1, motion mode STEP. -/
theorem C10_noop_axis_asserts_witness :
    axisModeOf 0x00 = AxisMode.XYZ ∧
    jogDispatch Pendant.STEP (-1) 0x0d 0x00 = Except.error Py.PyErr.assertionError :=
  C10_noop_axis_asserts 0x0d (-1) Pendant.STEP (Or.inr rfl) (by norm_num) (by decide)

end Processor
